import Mathlib

/-!
Shallow embedding of the ARMv4T emulator core (src/cpu.h, src/bits.h,
src/memory.h) in Lean 4, together with theorems settling the claims of the
specification against it.

Modelling conventions:
- `uint32_t` values are `Nat` kept below `2 ^ 32`; every write masks with
  `mask32` and 32-bit subtraction is `sub32` (two's complement wraparound).
- The register file is a total function `Nat → Nat`.  The C struct
  `cpu_registers_t` lays out `r[13]`, `sp`, `lr`, `pc` contiguously and the
  code indexes the flat array up to 15, so slot 13 is SP, 14 is LR and 15 is
  PC.  Indices 16 and above model the out-of-bounds reads the C code can
  perform (e.g. through its operand double-indexing); their values are
  unconstrained and no theorem below depends on them.
- Memory is a byte function `Nat → Nat`; reads truncate to a byte.  The C
  `char` is signed (MSVC target), so byte loads into registers sign-extend
  (`read8s`).  Word accesses are little-endian, matching the host
  `*(uint32_t*)` reinterpretation the code uses.
- C shifts by 32 or more bits are undefined behaviour; the embedding uses the
  total `Nat` shift (which yields 0 for oversized right shifts and is masked
  for left shifts).  No theorem below exercises an out-of-range shift.
- All `printf` logging is dropped; it does not affect machine state.
-/

def mask32 (n : Nat) : Nat := n % 4294967296

/-- 32-bit wrapping subtraction, the semantics of C `uint32_t` subtraction. -/
def sub32 (a b : Nat) : Nat := (a + 4294967296 - b % 4294967296) % 4294967296

/-- C logical negation `!x` on an `int` truth value. -/
def cnot (x : Nat) : Nat := if x = 0 then 1 else 0

/-- C logical conjunction `x && y` on `int` truth values. -/
def cand (x y : Nat) : Nat := if x ≠ 0 ∧ y ≠ 0 then 1 else 0

/-- C logical disjunction `x || y` on `int` truth values. -/
def cor (x y : Nat) : Nat := if x ≠ 0 ∨ y ≠ 0 then 1 else 0

/-- C equality test `x == y` as an `int` truth value. -/
def ceq (x y : Nat) : Nat := if x = y then 1 else 0

/-- C inequality test `x != y` as an `int` truth value. -/
def cne (x y : Nat) : Nat := if x ≠ y then 1 else 0

/-- bits.h `rotl32`: rotate a 32-bit value left by `c &&& 31` bits. -/
def rotl32 (n c : Nat) : Nat :=
  let c := c &&& 31
  mask32 (n <<< c) ||| (n >>> ((32 - c) &&& 31))

/-- bits.h `rotr32`: rotate a 32-bit value right by `c &&& 31` bits. -/
def rotr32 (n c : Nat) : Nat :=
  let c := c &&& 31
  (n >>> c) ||| mask32 (n <<< ((32 - c) &&& 31))

/-- bits.h `sign_extend`: sign-extend the low `b` bits of `x`, viewed here as
the two's complement `uint32_t` encoding of the resulting `int32_t`. -/
def sign_extend (x b : Nat) : Nat :=
  let m := 1 <<< (b - 1)
  let x := x &&& ((1 <<< b) - 1)
  mask32 ((x ^^^ m) + (4294967296 - m))

/-- Read one byte of the emulator memory surface (unsigned view). -/
def read8 (mem : Nat → Nat) (addr : Nat) : Nat := mem (mask32 addr) % 256

/-- Read one byte through the C `char*` (signed char, MSVC target) converted
to `uint32_t`: bytes at or above 0x80 sign-extend. -/
def read8s (mem : Nat → Nat) (addr : Nat) : Nat :=
  let b := read8 mem addr
  if b < 128 then b else 4294967040 + b

/-- Little-endian 16-bit read, the `*(uint16_t*)&mem[addr]` reinterpretation. -/
def read16 (mem : Nat → Nat) (addr : Nat) : Nat :=
  read8 mem addr + 256 * read8 mem (addr + 1)

/-- Little-endian 32-bit read, the `*(uint32_t*)&mem[addr]` reinterpretation. -/
def read32 (mem : Nat → Nat) (addr : Nat) : Nat :=
  read8 mem addr + 256 * read8 mem (addr + 1) +
    65536 * read8 mem (addr + 2) + 16777216 * read8 mem (addr + 3)

/-- Store one byte (C `char` assignment truncates to the low 8 bits). -/
def write8 (mem : Nat → Nat) (addr v : Nat) : Nat → Nat :=
  fun a => if a = mask32 addr then v % 256 else mem a

/-- Little-endian 16-bit store, the `*(int16_t*)&mem[addr]` write. -/
def write16 (mem : Nat → Nat) (addr v : Nat) : Nat → Nat :=
  write8 (write8 mem addr v) (addr + 1) (v >>> 8)

/-- Little-endian 32-bit store, the `*(uint32_t*)&mem[addr]` write. -/
def write32 (mem : Nat → Nat) (addr v : Nat) : Nat → Nat :=
  write8 (write8 (write8 (write8 mem addr v) (addr + 1) (v >>> 8))
    (addr + 2) (v >>> 16)) (addr + 3) (v >>> 24)

/-- Machine state: the flat register file (slot 13 = SP, 14 = LR, 15 = PC),
CPSR, the single SPSR slot of the C struct, and the byte memory surface. -/
structure Cpu where
  r : Nat → Nat
  cpsr : Nat
  spsr : Nat
  mem : Nat → Nat

/-- Write register slot `i` (a C `uint32_t` store, hence masked). -/
def setReg (c : Cpu) (i v : Nat) : Cpu :=
  { c with r := fun j => if j = i then mask32 v else c.r j }

def get_cpsr_mode (cpsr : Nat) : Nat := cpsr &&& 0x1F

def get_cpsr_negative (cpsr : Nat) : Nat := (cpsr >>> 31) &&& 0x1

def get_cpsr_zero (cpsr : Nat) : Nat := (cpsr >>> 30) &&& 0x1

def get_cpsr_carry (cpsr : Nat) : Nat := (cpsr >>> 29) &&& 0x1

def get_cpsr_overflow (cpsr : Nat) : Nat := (cpsr >>> 28) &&& 0x1

/-- cpu.h `set_cpsr_negative`: bit 31 receives `value & 0x1`. -/
def set_cpsr_negative (c : Cpu) (value : Nat) : Cpu :=
  { c with cpsr := (c.cpsr &&& 0x7FFFFFFF) ||| ((value &&& 0x1) <<< 31) }

/-- cpu.h `set_cpsr_zero`: bit 30 receives `value & 0x1`. -/
def set_cpsr_zero (c : Cpu) (value : Nat) : Cpu :=
  { c with cpsr := (c.cpsr &&& 0xBFFFFFFF) ||| ((value &&& 0x1) <<< 30) }

/-- cpu.h `set_cpsr_carry`: bit 29 receives `value & 0x1`. -/
def set_cpsr_carry (c : Cpu) (value : Nat) : Cpu :=
  { c with cpsr := (c.cpsr &&& 0xDFFFFFFF) ||| ((value &&& 0x1) <<< 29) }

/-- cpu.h `set_cpsr_overflow`: bit 28 receives `value & 0x1`.  Note the
`value & 0x1` truncation: callers pass expressions of the form
`... & 0x80000000`, whose bit 0 is always clear. -/
def set_cpsr_overflow (c : Cpu) (value : Nat) : Cpu :=
  { c with cpsr := (c.cpsr &&& 0xEFFFFFFF) ||| ((value &&& 0x1) <<< 28) }

/-- cpu.h `cpu_check_condition`: evaluate the 4-bit condition field in
bits 31..28 of `instruction` against the CPSR flags; returns an `int`
truth value. -/
def cpu_check_condition (cpsr instruction : Nat) : Nat :=
  let cond := (instruction >>> 28) &&& 0xF
  if cond = 0x0 then get_cpsr_zero cpsr
  else if cond = 0x1 then cnot (get_cpsr_zero cpsr)
  else if cond = 0x2 then get_cpsr_carry cpsr
  else if cond = 0x3 then cnot (get_cpsr_carry cpsr)
  else if cond = 0x4 then get_cpsr_negative cpsr
  else if cond = 0x5 then cnot (get_cpsr_negative cpsr)
  else if cond = 0x6 then get_cpsr_overflow cpsr
  else if cond = 0x7 then cnot (get_cpsr_overflow cpsr)
  else if cond = 0x8 then cand (get_cpsr_carry cpsr) (cnot (get_cpsr_zero cpsr))
  else if cond = 0x9 then cor (cnot (get_cpsr_carry cpsr)) (get_cpsr_zero cpsr)
  else if cond = 0xA then ceq (get_cpsr_negative cpsr) (get_cpsr_overflow cpsr)
  else if cond = 0xB then cne (get_cpsr_negative cpsr) (get_cpsr_overflow cpsr)
  else if cond = 0xC then cand (cnot (get_cpsr_zero cpsr))
    (ceq (get_cpsr_negative cpsr) (get_cpsr_overflow cpsr))
  else if cond = 0xD then cor (get_cpsr_zero cpsr)
    (cne (get_cpsr_negative cpsr) (get_cpsr_overflow cpsr))
  else if cond = 0xE then 1
  else 0

/-- The register-operand barrel shifter of the data-processing path
(cpu.h lines 235-323).  Note `shift_value` truncates the value of register
`rm` to a byte and is then itself used as a register index, and the carry
flag is updated in place when `s` is set and `rd` is not 15.  Returns the
shifted operand together with the (possibly carry-updated) state. -/
def arm_shifter_operand (cpu : Cpu) (instruction s rd : Nat) : Nat × Cpu :=
  let shift_value := cpu.r (instruction &&& 0xF) &&& 0xFF
  let shift_type := (instruction >>> 5) &&& 0x3
  let shift_amount :=
    if (instruction >>> 4) &&& 0x1 ≠ 0 then
      cpu.r ((instruction >>> 8) &&& 0xF) &&& 0xFF
    else
      (instruction >>> 7) &&& 0x1F
  let setc := fun (cpu : Cpu) (v : Nat) =>
    if s ≠ 0 ∧ rd ≠ 15 then set_cpsr_carry cpu v else cpu
  if shift_type = 0x0 then
    if shift_amount > 32 then
      (0, setc cpu 0)
    else
      (mask32 (cpu.r shift_value <<< shift_amount),
       setc cpu ((cpu.r shift_value >>> (32 - shift_amount)) &&& 0x1))
  else if shift_type = 0x1 then
    if shift_amount > 32 then
      (0, setc cpu 0)
    else
      (cpu.r shift_value >>> shift_amount,
       setc cpu ((cpu.r shift_value >>> (shift_amount - 1)) &&& 0x1))
  else if shift_type = 0x2 then
    if shift_amount ≥ 32 then
      (sign_extend (cpu.r shift_value >>> 31) (32 - shift_amount),
       setc cpu ((cpu.r shift_value >>> 31) &&& 0x1))
    else
      (sign_extend (cpu.r shift_value >>> shift_amount) (32 - shift_amount),
       setc cpu ((cpu.r shift_value >>> (shift_amount - 1)) &&& 0x1))
  else
    if shift_amount = 0 then
      ((cpu.r shift_value >>> 1) ||| (get_cpsr_carry cpu.cpsr <<< 31),
       setc cpu (cpu.r shift_value &&& 0x1))
    else
      (rotl32 (cpu.r shift_value) shift_amount,
       setc cpu ((cpu.r shift_value >>> (shift_amount - 1)) &&& 0x1))

/-- The data-processing ALU dispatch (cpu.h lines 335-525), after the second
operand `src2` has been computed.  Returns the C `return` value paired with
the new state: 1 everywhere (the `default` branch is unreachable for a 4-bit
opcode). -/
def arm_data_processing (cpu : Cpu) (instruction opcode s rn rd src2 : Nat) :
    Nat × Cpu :=
  if opcode = 0x0 then
    let cpu := setReg cpu rd (cpu.r rn &&& src2)
    let cpu := set_cpsr_zero cpu (ceq (cpu.r rd) 0)
    let cpu := set_cpsr_negative cpu (if cpu.r rd < 0 then 1 else 0)
    (1, cpu)
  else if opcode = 0x1 then
    let cpu := setReg cpu rd (cpu.r rn ^^^ src2)
    let cpu := set_cpsr_zero cpu (ceq (cpu.r rd) 0)
    let cpu := set_cpsr_negative cpu (if cpu.r rd < 0 then 1 else 0)
    (1, cpu)
  else if opcode = 0x2 then
    let cpu := setReg cpu rd (sub32 (cpu.r rn) src2)
    let cpu := set_cpsr_zero cpu (ceq (cpu.r rd) 0)
    let cpu := set_cpsr_negative cpu (if cpu.r rd < 0 then 1 else 0)
    let cpu := set_cpsr_carry cpu (if cpu.r rn ≥ src2 then 1 else 0)
    let cpu := set_cpsr_overflow cpu
      ((cpu.r rn ^^^ src2) &&& (cpu.r rn ^^^ cpu.r rd) &&& 0x80000000)
    (1, cpu)
  else if opcode = 0x3 then
    let cpu := setReg cpu rd (sub32 src2 (cpu.r rn))
    let cpu := set_cpsr_zero cpu (ceq (cpu.r rd) 0)
    let cpu := set_cpsr_negative cpu (if cpu.r rd < 0 then 1 else 0)
    let cpu := set_cpsr_carry cpu (if src2 ≥ cpu.r rn then 1 else 0)
    let cpu := set_cpsr_overflow cpu
      ((src2 ^^^ cpu.r rn) &&& (src2 ^^^ cpu.r rd) &&& 0x80000000)
    (1, cpu)
  else if opcode = 0x4 then
    let cpu := setReg cpu rd (mask32 (cpu.r rn + src2))
    let cpu := set_cpsr_zero cpu (ceq (cpu.r rd) 0)
    let cpu := set_cpsr_negative cpu (if cpu.r rd < 0 then 1 else 0)
    let cpu := set_cpsr_carry cpu (if cpu.r rn ≥ src2 then 1 else 0)
    let cpu := set_cpsr_overflow cpu
      ((cpu.r rn ^^^ src2) &&& (cpu.r rn ^^^ cpu.r rd) &&& 0x80000000)
    (1, cpu)
  else if opcode = 0x5 then
    let cpu := setReg cpu rd (mask32 (cpu.r rn + src2 + get_cpsr_carry cpu.cpsr))
    let cpu := set_cpsr_zero cpu (ceq (cpu.r rd) 0)
    let cpu := set_cpsr_negative cpu (if cpu.r rd < 0 then 1 else 0)
    let cpu := set_cpsr_carry cpu (if cpu.r rn ≥ src2 then 1 else 0)
    let cpu := set_cpsr_overflow cpu
      ((cpu.r rn ^^^ src2) &&& (cpu.r rn ^^^ cpu.r rd) &&& 0x80000000)
    (1, cpu)
  else if opcode = 0x6 then
    let cpu := setReg cpu rd
      (sub32 (sub32 (cpu.r rn) src2) (cnot (get_cpsr_carry cpu.cpsr)))
    let cpu := set_cpsr_zero cpu (ceq (cpu.r rd) 0)
    let cpu := set_cpsr_negative cpu (if cpu.r rd < 0 then 1 else 0)
    let cpu := set_cpsr_carry cpu (if cpu.r rn ≥ src2 then 1 else 0)
    let cpu := set_cpsr_overflow cpu
      ((cpu.r rn ^^^ src2) &&& (cpu.r rn ^^^ cpu.r rd) &&& 0x80000000)
    (1, cpu)
  else if opcode = 0x7 then
    let cpu := setReg cpu rd
      (sub32 (sub32 src2 (cpu.r rn)) (cnot (get_cpsr_carry cpu.cpsr)))
    let cpu := set_cpsr_zero cpu (ceq (cpu.r rd) 0)
    let cpu := set_cpsr_negative cpu (if cpu.r rd < 0 then 1 else 0)
    let cpu := set_cpsr_carry cpu (if src2 ≥ cpu.r rn then 1 else 0)
    let cpu := set_cpsr_overflow cpu
      ((src2 ^^^ cpu.r rn) &&& (src2 ^^^ cpu.r rd) &&& 0x80000000)
    (1, cpu)
  else if opcode = 0x8 then
    let tst_result := cpu.r rn &&& src2
    let cpu := set_cpsr_zero cpu (ceq tst_result 0)
    let cpu := set_cpsr_negative cpu (if tst_result < 0 then 1 else 0)
    (1, cpu)
  else if opcode = 0x9 then
    if s = 0 then
      let pd := (instruction >>> 22) &&& 0x1
      let rm := instruction &&& 0xF
      if pd = 0 then
        if get_cpsr_mode cpu.cpsr = 0x10 then
          (1, { cpu with cpsr :=
                  (cpu.cpsr &&& 0x0FFFFFFF) ||| (cpu.r rm &&& 0xF0000000) })
        else
          (1, { cpu with cpsr := cpu.r rm })
      else
        (1, { cpu with spsr := cpu.r rm })
    else
      let teq_result := cpu.r rn ^^^ src2
      let cpu := set_cpsr_zero cpu (ceq teq_result 0)
      let cpu := set_cpsr_negative cpu (if teq_result < 0 then 1 else 0)
      (1, cpu)
  else if opcode = 0xA then
    let cmp_result := sub32 (cpu.r rn) src2
    let cpu := set_cpsr_zero cpu (ceq cmp_result 0)
    let cpu := set_cpsr_negative cpu (if cmp_result < 0 then 1 else 0)
    let cpu := set_cpsr_carry cpu (if cpu.r rn ≥ src2 then 1 else 0)
    let cpu := set_cpsr_overflow cpu
      ((cpu.r rn ^^^ src2) &&& (cpu.r rn ^^^ cmp_result) &&& 0x80000000)
    (1, cpu)
  else if opcode = 0xB then
    let cmn_result := mask32 (cpu.r rn + src2)
    let cpu := set_cpsr_zero cpu (ceq cmn_result 0)
    let cpu := set_cpsr_negative cpu (if cmn_result < 0 then 1 else 0)
    let cpu := set_cpsr_carry cpu (if cpu.r rn ≥ src2 then 1 else 0)
    let cpu := set_cpsr_overflow cpu
      ((cpu.r rn ^^^ src2) &&& (cpu.r rn ^^^ cmn_result) &&& 0x80000000)
    (1, cpu)
  else if opcode = 0xC then
    let cpu := setReg cpu rd (cpu.r rn ||| src2)
    let cpu := set_cpsr_zero cpu (ceq (cpu.r rd) 0)
    let cpu := set_cpsr_negative cpu (if cpu.r rd < 0 then 1 else 0)
    (1, cpu)
  else if opcode = 0xD then
    let cpu := setReg cpu rd src2
    let cpu := set_cpsr_zero cpu (ceq (cpu.r rd) 0)
    let cpu := set_cpsr_negative cpu (if cpu.r rd < 0 then 1 else 0)
    (1, cpu)
  else if opcode = 0xE then
    let cpu := setReg cpu rd (cpu.r rn &&& (src2 ^^^ 0xFFFFFFFF))
    let cpu := set_cpsr_zero cpu (ceq (cpu.r rd) 0)
    let cpu := set_cpsr_negative cpu (if cpu.r rd < 0 then 1 else 0)
    (1, cpu)
  else
    let cpu := setReg cpu rd (src2 ^^^ 0xFFFFFFFF)
    let cpu := set_cpsr_zero cpu (ceq (cpu.r rd) 0)
    let cpu := set_cpsr_negative cpu (if cpu.r rd < 0 then 1 else 0)
    (1, cpu)

/-- The register-operand offset of the single data transfer path
(cpu.h lines 543-632).  Same shifter as `arm_shifter_operand` but every
carry-flag update is commented out in the source, so it is pure. -/
def arm_sdt_offset (cpu : Cpu) (instruction : Nat) : Nat :=
  let shift_value := cpu.r (instruction &&& 0xF) &&& 0xFF
  let shift_type := (instruction >>> 5) &&& 0x3
  let shift_amount :=
    if (instruction >>> 4) &&& 0x1 ≠ 0 then
      cpu.r ((instruction >>> 8) &&& 0xF) &&& 0xFF
    else
      (instruction >>> 7) &&& 0x1F
  if shift_type = 0x0 then
    if shift_amount > 32 then 0 else mask32 (cpu.r shift_value <<< shift_amount)
  else if shift_type = 0x1 then
    if shift_amount > 32 then 0 else cpu.r shift_value >>> shift_amount
  else if shift_type = 0x2 then
    if shift_amount ≥ 32 then
      sign_extend (cpu.r shift_value >>> 31) (32 - shift_amount)
    else
      sign_extend (cpu.r shift_value >>> shift_amount) (32 - shift_amount)
  else
    if shift_amount = 0 then
      (cpu.r shift_value >>> 1) ||| (get_cpsr_carry cpu.cpsr <<< 31)
    else
      rotl32 (cpu.r shift_value) shift_amount

/-- One iteration of the block data transfer loop (cpu.h lines 740-779) for
register index `i`, threading the running address and the state. -/
def arm_block_transfer_step (p u s l register_list : Nat)
    (acc : Nat × Cpu) (i : Nat) : Nat × Cpu :=
  let (address, cpu) := acc
  if (register_list >>> i) &&& 0x1 ≠ 0 then
    let address :=
      if p = 1 then
        if u = 1 then mask32 (address + 4) else sub32 address 4
      else address
    let cpu :=
      if l = 1 then
        let cpu := setReg cpu i (read32 cpu.mem address)
        if i = 15 ∧ s = 1 then { cpu with cpsr := cpu.spsr } else cpu
      else
        { cpu with mem := write32 cpu.mem address (cpu.r i) }
    let address :=
      if p = 0 then
        if u = 1 then mask32 (address + 4) else sub32 address 4
      else address
    (address, cpu)
  else
    (address, cpu)

/-- cpu.h `cpu_process_arm_instruction`: execute one 32-bit ARM instruction.
Returns the C `int` result (1 = executed or condition false, 0 = failure)
paired with the resulting state. -/
def cpu_process_arm_instruction (cpu : Cpu) (instruction : Nat) : Nat × Cpu :=
  if cpu_check_condition cpu.cpsr instruction = 0 then
    (1, cpu)
  else
    let instruction_type := (instruction >>> 26) &&& 0x3
    let i := (instruction >>> 25) &&& 0x1
    if instruction_type = 0x0 then
      if instruction &&& 0xFFFFFF0 = 0x12FFF10 then
        let rn := instruction &&& 0xF
        if cpu.r rn &&& 0x1 ≠ 0 then
          let cpu := setReg cpu 15 (cpu.r rn &&& 0xFFFFFFFE)
          let cpu := setReg cpu 15 (sub32 (cpu.r 15) 2)
          (1, { cpu with cpsr := cpu.cpsr &&& 0xFFFFFFDF })
        else
          let cpu := setReg cpu 15 (cpu.r rn &&& 0xFFFFFFFC)
          let cpu := setReg cpu 15 (sub32 (cpu.r 15) 4)
          (1, { cpu with cpsr := cpu.cpsr ||| 0x20 })
      else if i = 1 ∨ (instruction >>> 7) &&& 0x1 = 0 then
        let opcode := (instruction >>> 21) &&& 0xF
        let s := (instruction >>> 20) &&& 0x1
        let rn := (instruction >>> 16) &&& 0xF
        let rd := (instruction >>> 12) &&& 0xF
        let src2cpu :=
          if i = 0 then
            arm_shifter_operand cpu instruction s rd
          else
            (rotr32 (instruction &&& 0xFF) (((instruction >>> 8) &&& 0xF) * 2),
             cpu)
        arm_data_processing src2cpu.2 instruction opcode s rn rd src2cpu.1
      else
        (1, cpu)
    else if instruction_type = 0x1 then
      let p := (instruction >>> 24) &&& 0x1
      let u := (instruction >>> 23) &&& 0x1
      let b := (instruction >>> 22) &&& 0x1
      let w := (instruction >>> 21) &&& 0x1
      let l := (instruction >>> 20) &&& 0x1
      let rn := (instruction >>> 16) &&& 0xF
      let rd := (instruction >>> 12) &&& 0xF
      let offset := if i = 1 then arm_sdt_offset cpu instruction
        else instruction &&& 0xFFF
      let address := cpu.r rn
      let address :=
        if rn = 15 then
          if l = 0 then mask32 (address + 12) else mask32 (address + 8)
        else address
      let address :=
        if p = 1 then
          if u = 1 then mask32 (address + offset) else sub32 address offset
        else address
      let cpu :=
        if l = 1 then
          if b = 1 then setReg cpu rd (read8s cpu.mem address)
          else setReg cpu rd (read32 cpu.mem address)
        else
          if b = 1 then { cpu with mem := write8 cpu.mem address (cpu.r rd) }
          else { cpu with mem := write32 cpu.mem address (cpu.r rd) }
      let address :=
        if p = 0 then
          if u = 1 then mask32 (address + offset) else sub32 address offset
        else address
      let cpu := if w = 1 ∨ p = 0 then setReg cpu rn address else cpu
      (1, cpu)
    else if instruction_type = 0x2 then
      if i = 1 then
        let l := (instruction >>> 24) &&& 0x1
        let cpu := if l = 1 then setReg cpu 14 (mask32 (cpu.r 15 + 4)) else cpu
        let offset := (instruction &&& 0xFFFFFF) <<< 2
        let signed_offset := sign_extend offset 26
        let cpu := setReg cpu 15 (mask32 (cpu.r 15 + signed_offset + 4))
        (1, cpu)
      else
        let p := (instruction >>> 24) &&& 0x1
        let u := (instruction >>> 23) &&& 0x1
        let s := (instruction >>> 22) &&& 0x1
        let w := (instruction >>> 21) &&& 0x1
        let l := (instruction >>> 20) &&& 0x1
        let rn := (instruction >>> 16) &&& 0xF
        let register_list := instruction &&& 0xFFFF
        let start := (cpu.r rn, cpu)
        let res := (List.range 16).foldl
          (arm_block_transfer_step p u s l register_list) start
        let cpu := res.2
        let cpu := if w = 1 ∨ p = 0 then setReg cpu rn res.1 else cpu
        (1, cpu)
    else
      (0, cpu)

/-- The Thumb ALU operations block (cpu.h lines 954-1107). -/
def thumb_alu (cpu : Cpu) (instruction : Nat) : Cpu :=
  let opcode := (instruction >>> 6) &&& 0xF
  let rs := (instruction >>> 3) &&& 0x7
  let rd := instruction &&& 0x7
  if opcode = 0x0 then
    let cpu := setReg cpu rd (cpu.r rd &&& cpu.r rs)
    let cpu := set_cpsr_zero cpu (ceq (cpu.r rd) 0)
    set_cpsr_negative cpu (if cpu.r rd < 0 then 1 else 0)
  else if opcode = 0x1 then
    let cpu := setReg cpu rd (cpu.r rd ^^^ cpu.r rs)
    let cpu := set_cpsr_zero cpu (ceq (cpu.r rd) 0)
    set_cpsr_negative cpu (if cpu.r rd < 0 then 1 else 0)
  else if opcode = 0x2 then
    let cpu := setReg cpu rd (mask32 (cpu.r rd <<< (cpu.r rs &&& 0xFF)))
    let cpu := set_cpsr_zero cpu (ceq (cpu.r rd) 0)
    set_cpsr_negative cpu (if cpu.r rd < 0 then 1 else 0)
  else if opcode = 0x3 then
    let cpu := setReg cpu rd (cpu.r rd >>> cpu.r rs)
    let cpu := set_cpsr_zero cpu (ceq (cpu.r rd) 0)
    set_cpsr_negative cpu (if cpu.r rd < 0 then 1 else 0)
  else if opcode = 0x4 then
    let cpu := setReg cpu rd (sign_extend (cpu.r rd >>> cpu.r rs) (32 - cpu.r rs))
    let cpu := set_cpsr_zero cpu (ceq (cpu.r rd) 0)
    set_cpsr_negative cpu (if cpu.r rd < 0 then 1 else 0)
  else if opcode = 0x5 then
    let cpu := setReg cpu rd
      (mask32 (cpu.r rd + cpu.r rs + get_cpsr_carry cpu.cpsr))
    let cpu := set_cpsr_zero cpu (ceq (cpu.r rd) 0)
    let cpu := set_cpsr_negative cpu (if cpu.r rd < 0 then 1 else 0)
    let cpu := set_cpsr_carry cpu (if cpu.r rd ≥ cpu.r rs then 1 else 0)
    set_cpsr_overflow cpu ((cpu.r rd ^^^ cpu.r rs) &&&
      (cpu.r rd ^^^ sub32 (cpu.r rd) (cpu.r rs)) &&& 0x80000000)
  else if opcode = 0x6 then
    let cpu := setReg cpu rd
      (sub32 (cpu.r rd) (sub32 (cpu.r rs) (cnot (get_cpsr_carry cpu.cpsr))))
    let cpu := set_cpsr_zero cpu (ceq (cpu.r rd) 0)
    let cpu := set_cpsr_negative cpu (if cpu.r rd < 0 then 1 else 0)
    let cpu := set_cpsr_carry cpu (if cpu.r rd ≥ cpu.r rs then 1 else 0)
    set_cpsr_overflow cpu ((cpu.r rd ^^^ cpu.r rs) &&&
      (cpu.r rd ^^^ sub32 (cpu.r rd) (cpu.r rs)) &&& 0x80000000)
  else if opcode = 0x7 then
    let cpu := setReg cpu rd (rotl32 (cpu.r rd) (cpu.r rs))
    let cpu := set_cpsr_zero cpu (ceq (cpu.r rd) 0)
    set_cpsr_negative cpu (if cpu.r rd < 0 then 1 else 0)
  else if opcode = 0x8 then
    let cpu := set_cpsr_zero cpu (ceq (cpu.r rd &&& cpu.r rs) 0)
    set_cpsr_negative cpu (if cpu.r rd &&& cpu.r rs < 0 then 1 else 0)
  else if opcode = 0x9 then
    let cpu := setReg cpu rd (sub32 0 (cpu.r rs))
    let cpu := set_cpsr_zero cpu (ceq (cpu.r rd) 0)
    let cpu := set_cpsr_negative cpu (if cpu.r rd < 0 then 1 else 0)
    let cpu := set_cpsr_carry cpu 0
    set_cpsr_overflow cpu (ceq (cpu.r rd) 0x80000000)
  else if opcode = 0xA then
    let cpu := set_cpsr_zero cpu (ceq (cpu.r rd) (cpu.r rs))
    let cpu := set_cpsr_negative cpu (if cpu.r rd < cpu.r rs then 1 else 0)
    let cpu := set_cpsr_carry cpu (if cpu.r rd ≥ cpu.r rs then 1 else 0)
    set_cpsr_overflow cpu ((cpu.r rd ^^^ cpu.r rs) &&&
      (cpu.r rd ^^^ sub32 (cpu.r rd) (cpu.r rs)) &&& 0x80000000)
  else if opcode = 0xB then
    let cpu := set_cpsr_zero cpu (ceq (cpu.r rd) (sub32 0 (cpu.r rs)))
    let cpu := set_cpsr_negative cpu
      (if cpu.r rd < sub32 0 (cpu.r rs) then 1 else 0)
    let cpu := set_cpsr_carry cpu
      (if cpu.r rd ≥ sub32 0 (cpu.r rs) then 1 else 0)
    set_cpsr_overflow cpu ((cpu.r rd ^^^ sub32 0 (cpu.r rs)) &&&
      (cpu.r rd ^^^ sub32 (cpu.r rd) (sub32 0 (cpu.r rs))) &&& 0x80000000)
  else if opcode = 0xC then
    let cpu := setReg cpu rd (cpu.r rd ||| cpu.r rs)
    let cpu := set_cpsr_zero cpu (ceq (cpu.r rd) 0)
    set_cpsr_negative cpu (if cpu.r rd < 0 then 1 else 0)
  else if opcode = 0xD then
    let cpu := setReg cpu rd (mask32 (cpu.r rd * cpu.r rs))
    set_cpsr_zero cpu (ceq (cpu.r rd) 0)
  else if opcode = 0xE then
    let cpu := setReg cpu rd (cpu.r rd &&& (cpu.r rs ^^^ 0xFFFFFFFF))
    let cpu := set_cpsr_zero cpu (ceq (cpu.r rd) 0)
    set_cpsr_negative cpu (if cpu.r rd < 0 then 1 else 0)
  else
    let cpu := setReg cpu rd (cpu.r rs ^^^ 0xFFFFFFFF)
    let cpu := set_cpsr_zero cpu (ceq (cpu.r rd) 0)
    set_cpsr_negative cpu (if cpu.r rd < 0 then 1 else 0)

/-- The Thumb Hi-register operations / BX block (cpu.h lines 1109-1153).
The `h1`/`h2` bits are read but never used by the source, so only the 3-bit
register fields take part. -/
def thumb_hi_reg (cpu : Cpu) (instruction : Nat) : Cpu :=
  let opcode := (instruction >>> 8) &&& 0x3
  let rs_hs := (instruction >>> 3) &&& 0x7
  let rd_hd := instruction &&& 0x7
  if opcode = 0x0 then
    setReg cpu rd_hd (mask32 (cpu.r rd_hd + cpu.r rs_hs))
  else if opcode = 0x1 then
    let cpu := set_cpsr_zero cpu (ceq (cpu.r rd_hd) (cpu.r rs_hs))
    let cpu := set_cpsr_negative cpu
      (if cpu.r rd_hd < cpu.r rs_hs then 1 else 0)
    let cpu := set_cpsr_carry cpu (if cpu.r rd_hd ≥ cpu.r rs_hs then 1 else 0)
    set_cpsr_overflow cpu ((cpu.r rd_hd ^^^ cpu.r rs_hs) &&&
      (cpu.r rd_hd ^^^ sub32 (cpu.r rd_hd) (cpu.r rs_hs)) &&& 0x80000000)
  else if opcode = 0x2 then
    setReg cpu rd_hd (cpu.r rs_hs)
  else
    if cpu.r rs_hs &&& 0x1 ≠ 0 then
      let cpu := setReg cpu 15 (cpu.r rs_hs &&& 0xFFFFFFFE)
      let cpu := setReg cpu 15 (sub32 (cpu.r 15) 2)
      { cpu with cpsr := cpu.cpsr &&& 0xFFFFFFDF }
    else
      let cpu := setReg cpu 15 (cpu.r rs_hs &&& 0xFFFFFFFC)
      let cpu := setReg cpu 15 (sub32 (cpu.r 15) 4)
      { cpu with cpsr := cpu.cpsr ||| 0x20 }

/-- Thumb dispatch group `0b000` (cpu.h lines 815-899): shift by immediate
and the three-operand add/subtract. -/
def thumb_g000 (cpu : Cpu) (instruction : Nat) : Cpu :=
  let opcode := (instruction >>> 11) &&& 0x3
  if opcode = 0x0 then
    let offset5 := (instruction >>> 6) &&& 0x1F
    let rs := (instruction >>> 3) &&& 0x7
    let rd := instruction &&& 0x7
    let cpu := setReg cpu rd (mask32 (cpu.r rs <<< offset5))
    let cpu := set_cpsr_zero cpu (ceq (cpu.r rd) 0)
    set_cpsr_negative cpu (if cpu.r rd < 0 then 1 else 0)
  else if opcode = 0x1 then
    let offset5 := (instruction >>> 6) &&& 0x1F
    let rs := (instruction >>> 3) &&& 0x7
    let rd := instruction &&& 0x7
    let cpu := setReg cpu rd (cpu.r rs >>> offset5)
    let cpu := set_cpsr_zero cpu (ceq (cpu.r rd) 0)
    set_cpsr_negative cpu (if cpu.r rd < 0 then 1 else 0)
  else if opcode = 0x2 then
    let offset5 := (instruction >>> 6) &&& 0x1F
    let rs := (instruction >>> 3) &&& 0x7
    let rd := instruction &&& 0x7
    let cpu := setReg cpu rd (sign_extend (cpu.r rs >>> offset5) (32 - offset5))
    let cpu := set_cpsr_zero cpu (ceq (cpu.r rd) 0)
    set_cpsr_negative cpu (if cpu.r rd < 0 then 1 else 0)
  else
    let i := (instruction >>> 10) &&& 0x1
    let op := (instruction >>> 9) &&& 0x1
    let rn_or_offset3 := (instruction >>> 6) &&& 0x7
    let rs := (instruction >>> 3) &&& 0x7
    let rd := instruction &&& 0x7
    let operand := if i = 0 then cpu.r rn_or_offset3 else rn_or_offset3
    let cpu :=
      if op = 0 then setReg cpu rd (mask32 (cpu.r rs + operand))
      else setReg cpu rd (sub32 (cpu.r rs) operand)
    let cpu := set_cpsr_zero cpu (ceq (cpu.r rd) 0)
    let cpu := set_cpsr_negative cpu (if cpu.r rd < 0 then 1 else 0)
    let cpu := set_cpsr_carry cpu (if cpu.r rs ≥ operand then 1 else 0)
    set_cpsr_overflow cpu ((cpu.r rs ^^^ operand) &&&
      (cpu.r rs ^^^ cpu.r rd) &&& 0x80000000)

/-- Thumb dispatch group `0b001` (cpu.h lines 900-949): move/compare/add/
subtract with an 8-bit immediate. -/
def thumb_g001 (cpu : Cpu) (instruction : Nat) : Cpu :=
  let opcode := (instruction >>> 11) &&& 0x3
  let rd := (instruction >>> 8) &&& 0x7
  let offset8 := instruction &&& 0xFF
  if opcode = 0x0 then
    let cpu := setReg cpu rd offset8
    let cpu := set_cpsr_zero cpu (ceq (cpu.r rd) 0)
    set_cpsr_negative cpu (if cpu.r rd < 0 then 1 else 0)
  else if opcode = 0x1 then
    let cpu := set_cpsr_zero cpu (ceq (cpu.r rd) offset8)
    let cpu := set_cpsr_negative cpu (if cpu.r rd < offset8 then 1 else 0)
    let cpu := set_cpsr_carry cpu (if cpu.r rd ≥ offset8 then 1 else 0)
    set_cpsr_overflow cpu ((cpu.r rd ^^^ offset8) &&&
      (cpu.r rd ^^^ sub32 (cpu.r rd) offset8) &&& 0x80000000)
  else if opcode = 0x2 then
    let cpu := setReg cpu rd (mask32 (cpu.r rd + offset8))
    let cpu := set_cpsr_zero cpu (ceq (cpu.r rd) 0)
    let cpu := set_cpsr_negative cpu (if cpu.r rd < 0 then 1 else 0)
    let cpu := set_cpsr_carry cpu (if cpu.r rd ≥ offset8 then 1 else 0)
    set_cpsr_overflow cpu ((cpu.r rd ^^^ offset8) &&&
      (cpu.r rd ^^^ sub32 (cpu.r rd) offset8) &&& 0x80000000)
  else
    let cpu := setReg cpu rd (sub32 (cpu.r rd) offset8)
    let cpu := set_cpsr_zero cpu (ceq (cpu.r rd) 0)
    let cpu := set_cpsr_negative cpu (if cpu.r rd < 0 then 1 else 0)
    let cpu := set_cpsr_carry cpu (if cpu.r rd ≥ offset8 then 1 else 0)
    set_cpsr_overflow cpu ((cpu.r rd ^^^ offset8) &&&
      (cpu.r rd ^^^ sub32 (cpu.r rd) offset8) &&& 0x80000000)

/-- Thumb dispatch group `0b010` (cpu.h lines 950-1232): ALU operations,
Hi-register operations / BX, PC-relative load, and the register-offset
load/store forms. -/
def thumb_g010 (cpu : Cpu) (instruction : Nat) : Cpu :=
  if (instruction >>> 12) &&& 0x1 = 0 then
    if (instruction >>> 11) &&& 0x1 = 0 then
      if (instruction >>> 10) &&& 0x1 = 0 then
        thumb_alu cpu instruction
      else
        thumb_hi_reg cpu instruction
    else
      let rd := (instruction >>> 8) &&& 0x7
      let offset8 := instruction &&& 0xFF
      setReg cpu rd (mask32 (cpu.r 15 + (offset8 <<< 2)))
  else
    if (instruction >>> 9) &&& 0x1 = 0 then
      let l := (instruction >>> 11) &&& 0x1
      let b := (instruction >>> 10) &&& 0x1
      let ro := (instruction >>> 6) &&& 0x7
      let rb := (instruction >>> 3) &&& 0x7
      let rd := instruction &&& 0x7
      let address := mask32 (cpu.r rb + cpu.r ro)
      if l = 1 then
        if b = 1 then setReg cpu rd (read8s cpu.mem address)
        else setReg cpu rd (read32 cpu.mem address)
      else
        if b = 1 then { cpu with mem := write8 cpu.mem address (cpu.r rd) }
        else { cpu with mem := write32 cpu.mem address (cpu.r rd) }
    else
      let h := (instruction >>> 11) &&& 0x1
      let s := (instruction >>> 10) &&& 0x1
      let ro := (instruction >>> 6) &&& 0x7
      let rb := (instruction >>> 3) &&& 0x7
      let rd := instruction &&& 0x7
      let address := mask32 (cpu.r rb + cpu.r ro)
      if s = 1 then
        if h = 1 then setReg cpu rd (sign_extend (read16 cpu.mem address) 16)
        else setReg cpu rd (sign_extend (read8 cpu.mem address) 8)
      else
        if h = 1 then { cpu with mem := write16 cpu.mem address (cpu.r rd) }
        else { cpu with mem := write8 cpu.mem address (cpu.r rd) }

/-- Thumb dispatch group `0b011` (cpu.h lines 1234-1267): load/store with
an immediate offset.  The source shifts the offset left by 2 for bytes and
words alike. -/
def thumb_g011 (cpu : Cpu) (instruction : Nat) : Cpu :=
  let b := (instruction >>> 12) &&& 0x1
  let l := (instruction >>> 11) &&& 0x1
  let offset5 := (instruction >>> 6) &&& 0x1F
  let rb := (instruction >>> 3) &&& 0x7
  let rd := instruction &&& 0x7
  let address := mask32 (cpu.r rb + (offset5 <<< 2))
  if l = 1 then
    if b = 1 then setReg cpu rd (read8s cpu.mem address)
    else setReg cpu rd (read32 cpu.mem address)
  else
    if b = 1 then { cpu with mem := write8 cpu.mem address (cpu.r rd) }
    else { cpu with mem := write32 cpu.mem address (cpu.r rd) }

/-- Thumb dispatch group `0b100` (cpu.h lines 1269-1310): load/store
halfword (the source takes L from bit 10 and sign-extends loads) and
SP-relative load/store. -/
def thumb_g100 (cpu : Cpu) (instruction : Nat) : Cpu :=
  if (instruction >>> 12) &&& 0x1 = 0 then
    let l := (instruction >>> 10) &&& 0x1
    let offset5 := (instruction >>> 6) &&& 0x1F
    let rb := (instruction >>> 3) &&& 0x7
    let rd := instruction &&& 0x7
    let address := mask32 (cpu.r rb + (offset5 <<< 1))
    if l = 1 then setReg cpu rd (sign_extend (read16 cpu.mem address) 16)
    else { cpu with mem := write16 cpu.mem address (cpu.r rd) }
  else
    let l := (instruction >>> 11) &&& 0x1
    let rd := (instruction >>> 8) &&& 0x7
    let offset8 := instruction &&& 0xFF
    let address := mask32 (cpu.r 13 + (offset8 <<< 2))
    if l = 1 then setReg cpu rd (read32 cpu.mem address)
    else { cpu with mem := write32 cpu.mem address (cpu.r rd) }

/-- One iteration of the Thumb push/pop and multiple load/store loops
(cpu.h lines 1353-1372 and 1400-1413): ascending register index, address
always incremented by 4. -/
def thumb_stack_step (l rlist : Nat) (acc : Nat × Cpu) (i : Nat) : Nat × Cpu :=
  let (address, cpu) := acc
  if (rlist >>> i) &&& 0x1 ≠ 0 then
    if l = 1 then
      (mask32 (address + 4), setReg cpu i (read32 cpu.mem address))
    else
      (mask32 (address + 4), { cpu with mem := write32 cpu.mem address (cpu.r i) })
  else
    (address, cpu)

/-- Thumb dispatch group `0b101` (cpu.h lines 1312-1385): load address,
add offset to SP, and push/pop.  Note the source never pre-decrements SP
for a push; SP is simply set to the final running address. -/
def thumb_g101 (cpu : Cpu) (instruction : Nat) : Cpu :=
  if (instruction >>> 12) &&& 0x1 = 0 then
    let sp := (instruction >>> 11) &&& 0x1
    let rd := (instruction >>> 8) &&& 0x7
    let offset8 := instruction &&& 0xFF
    if sp = 0 then setReg cpu rd (mask32 (cpu.r 15 + (offset8 <<< 2)))
    else setReg cpu rd (mask32 (cpu.r 13 + (offset8 <<< 2)))
  else if (instruction >>> 10) &&& 0x1 = 0 then
    let s := (instruction >>> 7) &&& 0x1
    let sword7 := instruction &&& 0x7F
    if s = 0 then setReg cpu 13 (mask32 (cpu.r 13 + (sword7 <<< 2)))
    else setReg cpu 13 (sub32 (cpu.r 13) (sword7 <<< 2))
  else
    let l := (instruction >>> 11) &&& 0x1
    let rbit := (instruction >>> 8) &&& 0x1
    let rlist := instruction &&& 0xFF
    let start := (cpu.r 13, cpu)
    let res := (List.range 8).foldl (thumb_stack_step l rlist) start
    let address := res.1
    let cpu := res.2
    if l = 1 then
      if rbit = 1 then
        let cpu := setReg cpu 15 (read32 cpu.mem address &&& 0xFFFFFFFE)
        let cpu := { cpu with cpsr := cpu.cpsr &&& 0xFFFFFFDF }
        setReg cpu 13 (mask32 (address + 4))
      else
        setReg cpu 13 address
    else
      if rbit = 1 then
        let cpu := { cpu with mem := write32 cpu.mem address (cpu.r 14) }
        setReg cpu 13 (mask32 (address + 4))
      else
        setReg cpu 13 address

/-- Thumb dispatch group `0b110` (cpu.h lines 1387-1455): multiple
load/store, software interrupt, and the conditional branch.  The source
passes the bare condition nibble to `cpu_check_condition`, which then
extracts bits 31..28 of it, so the evaluated condition is always 0 (EQ). -/
def thumb_g110 (cpu : Cpu) (instruction : Nat) : Cpu :=
  if (instruction >>> 12) &&& 0x1 = 0 then
    let l := (instruction >>> 11) &&& 0x1
    let rb := (instruction >>> 8) &&& 0x7
    let rlist := instruction &&& 0xFF
    let start := (cpu.r rb, cpu)
    let res := (List.range 8).foldl (thumb_stack_step l rlist) start
    setReg res.2 rb res.1
  else if (instruction >>> 8) &&& 0xF = 0xF then
    let cpu := setReg cpu 14 (mask32 (cpu.r 15 + 4))
    let cpu := { cpu with spsr := cpu.cpsr }
    let cpu := setReg cpu 15 (read32 cpu.mem 0x8 &&& 0xFFFFFFFE)
    { cpu with cpsr := (cpu.cpsr &&& 0xFFFFFFE0) ||| 0x13 }
  else
    let cond := (instruction >>> 8) &&& 0xF
    let offset8 := instruction &&& 0xFF
    let offset := sign_extend (offset8 <<< 1) 9
    if cpu_check_condition cpu.cpsr cond ≠ 0 then
      setReg cpu 15 (mask32 (cpu.r 15 + offset + 4))
    else
      cpu

/-- Thumb dispatch group `0b111` (cpu.h lines 1457-1492): unconditional
branch and the two halves of the long branch with link. -/
def thumb_g111 (cpu : Cpu) (instruction : Nat) : Cpu :=
  if (instruction >>> 12) &&& 0x1 = 0 then
    let offset11 := instruction &&& 0x7FF
    let offset := sign_extend (offset11 <<< 1) 12
    setReg cpu 15 (mask32 (cpu.r 15 + offset + 4))
  else
    let h := (instruction >>> 11) &&& 0x1
    let offset11 := instruction &&& 0x7FF
    if h = 0 then
      setReg cpu 14 (mask32 (cpu.r 15 + (offset11 <<< 12)))
    else
      let cpu := setReg cpu 15 (mask32 (cpu.r 14 + (offset11 <<< 1)))
      let cpu := setReg cpu 15 (sub32 (cpu.r 15) 2)
      let cpu := setReg cpu 14 (mask32 (cpu.r 15 + 2))
      setReg cpu 14 (cpu.r 14 ||| 0x1)

/-- cpu.h `cpu_process_thumb_instruction`: execute one 16-bit Thumb
instruction.  The source's dispatch switch is missing the `break` after
groups `0b000` and `0b010`, so group `0b000` falls through into `0b001`
and group `0b010` falls through into `0b011`; the embedding composes the
group bodies accordingly.  Every reachable path returns 1. -/
def cpu_process_thumb_instruction (cpu : Cpu) (instruction : Nat) :
    Nat × Cpu :=
  let instruction_type := (instruction >>> 13) &&& 0x7
  if instruction_type = 0x0 then
    (1, thumb_g001 (thumb_g000 cpu instruction) instruction)
  else if instruction_type = 0x1 then
    (1, thumb_g001 cpu instruction)
  else if instruction_type = 0x2 then
    (1, thumb_g011 (thumb_g010 cpu instruction) instruction)
  else if instruction_type = 0x3 then
    (1, thumb_g011 cpu instruction)
  else if instruction_type = 0x4 then
    (1, thumb_g100 cpu instruction)
  else if instruction_type = 0x5 then
    (1, thumb_g101 cpu instruction)
  else if instruction_type = 0x6 then
    (1, thumb_g110 cpu instruction)
  else
    (1, thumb_g111 cpu instruction)

/-- The ARM branch of the `cpu_run` loop body (cpu.h lines 1518-1529):
fetch 32 bits at PC, dispatch to the ARM executor, then advance PC by 4;
`none` models `cpu_run` returning with an error. -/
def arm_path (cpu : Cpu) : Option Cpu :=
  let instruction := read32 cpu.mem (cpu.r 15)
  let res := cpu_process_arm_instruction cpu instruction
  if res.1 = 0 then none else some (setReg res.2 15 (res.2.r 15 + 4))

/-- The Thumb branch of the `cpu_run` loop body (cpu.h lines 1530-1542):
fetch 16 bits at PC, dispatch to the Thumb executor, then advance PC by 2. -/
def thumb_path (cpu : Cpu) : Option Cpu :=
  let instruction := read16 cpu.mem (cpu.r 15)
  let res := cpu_process_thumb_instruction cpu instruction
  if res.1 = 0 then none else some (setReg res.2 15 (res.2.r 15 + 2))

/-- One iteration of the `cpu_run` execution loop (cpu.h lines 1516-1542):
the width and executor are selected by `cpsr & 0x20` (nonzero selects the
32-bit ARM path). -/
def cpu_step (cpu : Cpu) : Option Cpu :=
  if cpu.cpsr &&& 0x20 ≠ 0 then
    let instruction := read32 cpu.mem (cpu.r 15)
    let res := cpu_process_arm_instruction cpu instruction
    if res.1 = 0 then none else some (setReg res.2 15 (res.2.r 15 + 4))
  else
    let instruction := read16 cpu.mem (cpu.r 15)
    let res := cpu_process_thumb_instruction cpu instruction
    if res.1 = 0 then none else some (setReg res.2 15 (res.2.r 15 + 2))

/-- The initialization `cpu_run` performs before its first loop iteration
(cpu.h lines 1506-1513): `memset` the whole register block to zero, then
set bits 0x20 and 0x10 of CPSR.  Register indices 16 and above are the
out-of-bounds region of the model and are left untouched. -/
def cpu_run_init (cpu : Cpu) : Cpu :=
  { cpu with r := fun i => if i < 16 then 0 else cpu.r i,
             cpsr := 0x30, spsr := 0 }

/-- The architectural T bit of a CPSR value as the specification defines it:
bit 5, with 1 meaning Thumb state. -/
def cpsr_T (cpsr : Nat) : Nat := (cpsr >>> 5) &&& 0x1

/-- Modelled from the spec: the V flag the specification demands of SUB,
`V = (A<31> ≠ B<31>) ∧ (result<31> ≠ A<31>)` with `result = A - B` mod 2^32. -/
def sub_v_flag_spec (a b : Nat) : Nat :=
  if (a >>> 31) &&& 0x1 ≠ (b >>> 31) &&& 0x1 ∧
     (sub32 a b >>> 31) &&& 0x1 ≠ (a >>> 31) &&& 0x1 then 1 else 0

/-- Concrete state for the execution-loop dispatch claims: CPSR 0x30
(bit 5 set), all registers zero, all memory zero. -/
def exC1 : Cpu := { r := fun _ => 0, cpsr := 0x30, spsr := 0, mem := fun _ => 0 }

/-- Concrete state of the ADDS scenario: r1 = 0x7FFFFFFF, r2 = 1,
CPSR = 0x10. -/
def exC2 : Cpu :=
  { r := fun i => if i = 1 then 0x7FFFFFFF else if i = 2 then 1 else 0,
    cpsr := 0x10, spsr := 0, mem := fun _ => 0 }

/-- Concrete state exercising SUBS with Rn value 0x80000000 and operand 2
equal to 1: because the source double-indexes the operand register, r2
holds the index 3 and r3 holds the operand value. -/
def exC3 : Cpu :=
  { r := fun i => if i = 1 then 0x80000000 else if i = 2 then 3 else
      if i = 3 then 1 else 0,
    cpsr := 0x10, spsr := 0, mem := fun _ => 0 }

/-- ARM-state machine about to execute `BX r0` (0xE12FFF10 stored
little-endian at PC = 0x08000000) with r0 = 0x08000101 (Thumb target). -/
def exC4a : Cpu :=
  { r := fun i => if i = 0 then 0x08000101 else if i = 15 then 0x08000000 else 0,
    cpsr := 0x30, spsr := 0,
    mem := fun a => if a = 0x08000000 then 0x10 else if a = 0x08000001 then 0xFF
      else if a = 0x08000002 then 0x2F else if a = 0x08000003 then 0xE1 else 0 }

/-- Same as `exC4a` but with r0 = 0x08000100 (ARM target). -/
def exC4b : Cpu :=
  { r := fun i => if i = 0 then 0x08000100 else if i = 15 then 0x08000000 else 0,
    cpsr := 0x30, spsr := 0,
    mem := fun a => if a = 0x08000000 then 0x10 else if a = 0x08000001 then 0xFF
      else if a = 0x08000002 then 0x2F else if a = 0x08000003 then 0xE1 else 0 }

/-- State for a descending block store: base r1 = 0x03000100,
r2 = 0xAA, r3 = 0xBB, zero memory. -/
def exC5 : Cpu :=
  { r := fun i => if i = 1 then 0x03000100 else if i = 2 then 0xAA else
      if i = 3 then 0xBB else 0,
    cpsr := 0x10, spsr := 0, mem := fun _ => 0 }

/-- State of the unaligned LDR scenario: r1 = 0x02000001 and memory bytes
11 22 33 44 at 0x02000000 (all other bytes zero). -/
def exC6 : Cpu :=
  { r := fun i => if i = 1 then 0x02000001 else 0,
    cpsr := 0x10, spsr := 0,
    mem := fun a => if a = 0x02000000 then 0x11 else if a = 0x02000001 then 0x22
      else if a = 0x02000002 then 0x33 else if a = 0x02000003 then 0x44 else 0 }

/-- State for the Thumb ALU ROR scenario: source r0 = 1, amount r1 = 1. -/
def exC7 : Cpu :=
  { r := fun i => if i = 0 then 1 else if i = 1 then 1 else 0,
    cpsr := 0, spsr := 0, mem := fun _ => 0 }

/-- State for the ARM register-operand ROR scenario `MOVS r0, r1, ROR 2`:
r1 = 1, so the double-indexed source register is again r1 with value 1. -/
def exC7a : Cpu :=
  { r := fun i => if i = 1 then 1 else 0,
    cpsr := 0x10, spsr := 0, mem := fun _ => 0 }

/-- User-mode state for the MSR scenario: CPSR = 0x10 (User, all other
bits clear), r1 = 0xFF000000. -/
def exC8 : Cpu :=
  { r := fun i => if i = 1 then 0xFF000000 else 0,
    cpsr := 0x10, spsr := 0, mem := fun _ => 0 }

/-- Host-provided entry state for the `cpu_run` claim: entry PC 0x08000000,
entry CPSR 0x10, pre-seeded r1 = 5. -/
def exC9 : Cpu :=
  { r := fun i => if i = 15 then 0x08000000 else if i = 1 then 5 else 0,
    cpsr := 0x10, spsr := 0, mem := fun _ => 0 }

/-- State whose CPSR has Z clear, so that condition EQ evaluates false. -/
def exC10 : Cpu := { r := fun _ => 0, cpsr := 0, spsr := 0, mem := fun _ => 0 }

/-- The low six bits of a CPSR relate its bit 5 (the architectural T bit) to
the mask 0x20 the execution loop tests. -/
theorem cpsr_and_0x20 (n : Nat) : n &&& 0x20 = 32 * cpsr_T n := by
  have h1 : n &&& 2 ^ 5 = (n.testBit 5).toNat * 2 ^ 5 := Nat.and_two_pow n 5
  have h2 : cpsr_T n = n / 2 ^ 5 % 2 := by
    show (n >>> 5) &&& 1 = n / 2 ^ 5 % 2
    rw [Nat.and_one_is_mod, Nat.shiftRight_eq_div_pow]
  have h3 : n &&& 0x20 = (n.testBit 5).toNat * 2 ^ 5 := h1
  rw [h3, Nat.testBit_to_div_mod, h2]
  rcases Nat.mod_two_eq_zero_or_one (n / 2 ^ 5) with h | h <;> rw [h] <;> simp

/-- C1 counterexample: a state whose CPSR T bit (bit 5) is 1 on which the
execution-loop step is not the 16-bit Thumb dispatch the claim demands
(the step takes the 32-bit ARM path and ends with PC = 4, not 2). -/
theorem C1_counterexample :
    cpsr_T exC1.cpsr = 1 ∧ cpu_step exC1 ≠ thumb_path exC1 := by
  refine ⟨by decide, fun h => ?_⟩
  have h2 : (cpu_step exC1).map (fun c => c.r 15) =
      (thumb_path exC1).map (fun c => c.r 15) := by rw [h]
  have h3 : (cpu_step exC1).map (fun c => c.r 15) = some 4 := by decide
  have h4 : (thumb_path exC1).map (fun c => c.r 15) = some 2 := by decide
  rw [h3, h4] at h2
  exact absurd h2 (by decide)

/-- C1 (amended): the execution loop dispatches on bit 5 of CPSR with the
polarity inverted relative to the architectural T bit: when bit 5 is 1 the
step fetches a 32-bit word at PC and dispatches to the ARM executor, and
when bit 5 is 0 it fetches a 16-bit word and dispatches to the Thumb
executor. -/
theorem C1_amended (c : Cpu) :
    (cpsr_T c.cpsr = 1 → cpu_step c = arm_path c) ∧
    (cpsr_T c.cpsr = 0 → cpu_step c = thumb_path c) := by
  have hm := cpsr_and_0x20 c.cpsr
  constructor
  · intro h
    rw [h] at hm
    have h2 : c.cpsr &&& 0x20 ≠ 0 := by omega
    unfold cpu_step
    rw [if_pos h2]
    rfl
  · intro h
    rw [h] at hm
    have h2 : ¬ c.cpsr &&& 0x20 ≠ 0 := by omega
    unfold cpu_step
    rw [if_neg h2]
    rfl

/-- C1 amended, witness at the concrete state `exC1` (bit 5 set). -/
theorem C1_amended_witness : cpu_step exC1 = arm_path exC1 :=
  (C1_amended exC1).1 (by decide)

/-- C2: executing the ADDS scenario on the code.  Because the source
double-indexes operand 2 (`src2 = r[r[2] & 0xFF] = r[1]`), derives N from
an unsigned `< 0` comparison, computes C as `Rn >= src2`, and truncates the
overflow expression with `& 0x1`, the result is r0 = 0xFFFFFFFE with
N = 0, Z = 0, C = 1, V = 0 instead of the claimed r0 = 0x80000000 with
N = 1, Z = 0, C = 0, V = 1. -/
theorem C2_execution :
    (cpu_process_arm_instruction exC2 0xE0910002).1 = 1 ∧
    (cpu_process_arm_instruction exC2 0xE0910002).2.r 0 = 0xFFFFFFFE ∧
    get_cpsr_negative (cpu_process_arm_instruction exC2 0xE0910002).2.cpsr = 0 ∧
    get_cpsr_zero (cpu_process_arm_instruction exC2 0xE0910002).2.cpsr = 0 ∧
    get_cpsr_carry (cpu_process_arm_instruction exC2 0xE0910002).2.cpsr = 1 ∧
    get_cpsr_overflow (cpu_process_arm_instruction exC2 0xE0910002).2.cpsr = 0 := by
  decide

/-- C3: executing SUBS with Rn value a = 0x80000000 and operand 2 value
b = 1 (a signed-overflow case).  The code leaves V = 0 because
`set_cpsr_overflow` truncates its argument with `& 0x1`, while the
specification's V predicate demands 1; the C and Z flags do match the
claim on this input. -/
theorem C3_execution :
    (cpu_process_arm_instruction exC3 0xE0510002).2.r 0 = 0x7FFFFFFF ∧
    get_cpsr_overflow (cpu_process_arm_instruction exC3 0xE0510002).2.cpsr = 0 ∧
    sub_v_flag_spec 0x80000000 1 = 1 ∧
    get_cpsr_carry (cpu_process_arm_instruction exC3 0xE0510002).2.cpsr = 1 ∧
    get_cpsr_zero (cpu_process_arm_instruction exC3 0xE0510002).2.cpsr = 0 := by
  decide

/-- C4: executing `BX r0` as one loop step.  With r0 = 0x08000101 the step
ends with PC = 0x08000102 and CPSR bit 5 = 0 (the BX hack subtracts 2 but
the ARM loop branch then adds 4); with r0 = 0x08000100 it ends with
PC = 0x08000100 and CPSR bit 5 = 1.  The claim expects PC = 0x08000100 with
T = 1, and PC = 0x08000100 with T = 0, respectively. -/
theorem C4_execution :
    (cpu_step exC4a).map (fun c => (c.r 15, cpsr_T c.cpsr)) =
      some (0x08000102, 0) ∧
    (cpu_step exC4b).map (fun c => (c.r 15, cpsr_T c.cpsr)) =
      some (0x08000100, 1) := by
  decide

/-- C5: the descending block store `STMDB`-style instruction 0xE901000C
(P = 1, U = 0, base r1 = 0x03000100, list r2 < r3) places r2's word at
address 0x030000FC and r3's word at the strictly lower address 0x030000F8:
the lower-numbered register occupies the higher address, contradicting the
claimed ascending-address mapping. -/
theorem C5_execution :
    read32 (cpu_process_arm_instruction exC5 0xE901000C).2.mem 0x030000FC =
      0xAA ∧
    read32 (cpu_process_arm_instruction exC5 0xE901000C).2.mem 0x030000F8 =
      0xBB := by
  decide

/-- C6: `LDR r0, [r1]` with r1 = 0x02000001 and memory bytes 11 22 33 44 at
0x02000000 loads the raw little-endian word at the unaligned address,
yielding r0 = 0x00443322; the claimed ARMv4 rotate-by-8 behaviour would
yield `rotr32 0x44332211 8 = 0x11443322`. -/
theorem C6_execution :
    (cpu_process_arm_instruction exC6 0xE5910000).2.r 0 = 0x00443322 ∧
    rotr32 0x44332211 8 = 0x11443322 := by
  decide

/-- C7: the ROR paths rotate left instead of right.  The Thumb ALU ROR
(0x41C8, source r0 = 1, amount r1 = 1) produces r0 = 2 with the carry flag
untouched (0), where rotate-right yields `rotr32 1 1 = 0x80000000` with
carry 1; the ARM register-operand ROR (`MOVS r0, r1, ROR 2`, source value 1)
produces r0 = 4 where rotate-right yields `rotr32 1 2 = 0x40000000`. -/
theorem C7_execution :
    (cpu_process_thumb_instruction exC7 0x41C8).2.r 0 = 2 ∧
    get_cpsr_carry (cpu_process_thumb_instruction exC7 0x41C8).2.cpsr = 0 ∧
    (cpu_process_arm_instruction exC7a 0xE1B00161).2.r 0 = 4 ∧
    rotr32 1 1 = 0x80000000 ∧
    rotr32 1 2 = 0x40000000 := by
  decide

/-- C8 counterexample: in User mode (CPSR = 0x10), `MSR CPSR, r1` with
r1 = 0xFF000000 yields CPSR = 0xF0000010, not the 0xFF000010 the claim's
bits-31..24 field replacement would give. -/
theorem C8_counterexample :
    get_cpsr_mode exC8.cpsr = 0x10 ∧
    (cpu_process_arm_instruction exC8 0xE129F001).2.cpsr ≠
      (exC8.cpsr &&& 0x00FFFFFF) ||| (exC8.r 1 &&& 0xFF000000) := by
  decide

/-- C8 (amended): in User mode an MSR targeting CPSR replaces only the
condition-flag bits 31..28 of CPSR with the corresponding bits of the
source register; bits 27..0 (including bits 27..24 of the claimed flag
field) are unchanged, and the rest of the machine state is untouched. -/
theorem C8_user_msr (c : Cpu) (h : get_cpsr_mode c.cpsr = 0x10) :
    cpu_process_arm_instruction c 0xE129F001 =
      (1, { c with cpsr := (c.cpsr &&& 0x0FFFFFFF) ||| (c.r 1 &&& 0xF0000000) }) := by
  have e : cpu_process_arm_instruction c 0xE129F001 =
      if get_cpsr_mode c.cpsr = 0x10 then
        (1, { c with cpsr := (c.cpsr &&& 0x0FFFFFFF) ||| (c.r 1 &&& 0xF0000000) })
      else (1, { c with cpsr := c.r 1 }) := rfl
  rw [e, if_pos h]

/-- C8 amended, witness at the concrete User-mode state `exC8`. -/
theorem C8_user_msr_witness :
    cpu_process_arm_instruction exC8 0xE129F001 =
      (1, { exC8 with cpsr :=
              (exC8.cpsr &&& 0x0FFFFFFF) ||| (exC8.r 1 &&& 0xF0000000) }) :=
  C8_user_msr exC8 (by decide)

/-- C9 counterexample: with entry PC 0x08000000, entry CPSR 0x10 and
pre-seeded r1 = 5, the initialization `cpu_run` performs before its first
fetch discards all three: PC, CPSR and r1 all differ from the
host-provided values afterwards. -/
theorem C9_counterexample :
    (cpu_run_init exC9).r 15 ≠ exC9.r 15 ∧
    (cpu_run_init exC9).cpsr ≠ exC9.cpsr ∧
    (cpu_run_init exC9).r 1 ≠ exC9.r 1 := by
  decide

/-- C9 (amended): `cpu_run` ignores the host-provided entry state: before
the first fetch it zeroes every register slot (so the first instruction is
fetched at PC = 0) and forces CPSR to 0x30, whatever state the host
provided; only memory survives. -/
theorem C9_init (c : Cpu) :
    (cpu_run_init c).cpsr = 0x30 ∧ (cpu_run_init c).mem = c.mem ∧
    ∀ i, i < 16 → (cpu_run_init c).r i = 0 := by
  refine ⟨rfl, rfl, fun i hi => ?_⟩
  simp [cpu_run_init, hi]

/-- C9 amended, witness at the concrete entry state `exC9` (instantiating
the register clause at the program counter, slot 15). -/
theorem C9_init_witness :
    (cpu_run_init exC9).cpsr = 0x30 ∧ (cpu_run_init exC9).r 15 = 0 :=
  ⟨(C9_init exC9).1, (C9_init exC9).2.2 15 (by decide)⟩

/-- C10: if the condition field of an ARM instruction evaluates to false
against the current CPSR, `cpu_process_arm_instruction` returns 1 and the
whole machine state (registers including SP, LR, PC, CPSR, SPSR, and
memory) is returned unchanged. -/
theorem C10_condition_false_frame (c : Cpu) (instruction : Nat)
    (h : cpu_check_condition c.cpsr instruction = 0) :
    cpu_process_arm_instruction c instruction = (1, c) := by
  unfold cpu_process_arm_instruction
  rw [if_pos h]

/-- C10 witness: condition EQ (instruction 0x00000000) with Z clear. -/
theorem C10_condition_false_frame_witness :
    cpu_check_condition exC10.cpsr 0 = 0 ∧
    cpu_process_arm_instruction exC10 0 = (1, exC10) :=
  ⟨by decide, C10_condition_false_frame exC10 0 (by decide)⟩
